import Mathlib

/-!
Shallow embedding of the crash-analysis core of `src/linux/ptrace_utils.c`
(honggfuzz, Linux/ptrace architecture back-end), modelling the 64-bit build
(`REG_TYPE = uint64_t`, `REG_PD REG_PM = "0x%016" PRIx64`).

External collaborators (util.c, files.c, common.h constants, the unwinder, the
filesystem and the traced process) are not under `src/`; their observable
results enter the model as explicit parameters, and the few compile-time
constants the core needs are modelled from the spec where noted.
-/

namespace Honggfuzz

/-- Modelled from the spec: `_HF_SINGLE_FRAME_MASK` (common.h, not under src/).
The spec says the reserved bit is the high bit of the 64-bit stack hash. -/
def singleFrameMask : Nat := 2 ^ 63

/-- Modelled from the spec: `_HF_DYNFILE_SUB_MASK` (common.h, not under src/).
The spec says the atomic AND with this mask clears the two most significant
bits of the 64-bit `dyn_iter_expire` counter. -/
def dynFileSubMask : Nat := 2 ^ 62 - 1

/-- Modelled from the spec: `HF_MSAN_EXIT_CODE` (common.h, not under src/), a
fixed compile-time sanitizer exit code. -/
def HF_MSAN_EXIT_CODE : Nat := 103

/-- Modelled from the spec: `HF_ASAN_EXIT_CODE` (common.h, not under src/), a
fixed compile-time sanitizer exit code. -/
def HF_ASAN_EXIT_CODE : Nat := 104

/-- Modelled from the spec: `HF_UBSAN_EXIT_CODE` (common.h, not under src/), a
fixed compile-time sanitizer exit code. -/
def HF_UBSAN_EXIT_CODE : Nat := 105

/-- `MAX_THREAD_IN_TASK` from ptrace_utils.c (line 1504). -/
def MAX_THREAD_IN_TASK : Nat := 4096

/-- One program-counter value rendered by
`snprintf(pcStr, REGSIZEINCHAR, REG_PD REG_PM, pc)` (line 742): a fixed-width
`0x`-prefixed lowercase hexadecimal string of the 64-bit value, 16 hex digits,
18 characters in total. -/
def pcStr64 (pc : Nat) : List Char :=
  '0' :: 'x' :: (List.range 16).map (fun i => Nat.digitChar (pc % 2 ^ 64 / 16 ^ (15 - i) % 16))

/-- `&pcStr[strlen(pcStr) - 3]` (line 747): the last three characters of a
register string. -/
def lastThree (s : List Char) : List Char := s.drop (s.length - 3)

/-- The XOR accumulation loop of `arch_hashCallstack` (lines 737-748): starting
from `hash = 0`, for each of the first `min(funcCnt, numMajorFrames)` frames,
XOR in `util_hash` of the last three characters of the formatted PC.
`util_hash` lives in util.c (not under src/) and is passed in as an arbitrary
function `hashFn`. -/
def callstackHash (hashFn : List Char → Nat) (numMajorFrames : Nat) (frames : List Nat) : Nat :=
  (frames.take numMajorFrames).foldl (fun h pc => h ^^^ hashFn (lastThree (pcStr64 pc))) 0

/-- `arch_hashCallstack` (lines 733-760): the XOR loop, then, if masking is
enabled and exactly one frame contributed, OR in the single-frame mask. The
result is written to `fuzzer->backtrace` by the C function; here it is
returned. -/
def arch_hashCallstack (hashFn : List Char → Nat) (numMajorFrames : Nat)
    (frames : List Nat) (enableMasking : Bool) : Nat :=
  if enableMasking && frames.length == 1 then
    callstackHash hashFn numMajorFrames frames ||| singleFrameMask
  else
    callstackHash hashFn numMajorFrames frames

/-- Result of `files_copyFile(src, dst, &dstFileExists)` (files.c, external):
the copy succeeded, the destination already existed, or another I/O error. -/
inductive CopyRes
  | okNew
  | destExists
  | ioErr
deriving DecidableEq, Repr

/-- Where a call to the save path ended up; used to record which `return`
statement of the C function was taken. -/
inductive Outcome
  | droppedBelowAddr
  | droppedDuplicate
  | blacklistedHash
  | blacklistedSymbol
  | saved
  | duplicateFile
  | ioError
  | earlyReturn
  | logMissing
deriving DecidableEq, Repr

/-- The process-wide atomic counters of `honggfuzz_t` touched by the save
paths: `crashesCnt`, `uniqueCrashesCnt`, `blCrashesCnt`,
`dynFileIterExpire`. -/
structure Counters where
  crashesCnt : Nat
  uniqueCrashesCnt : Nat
  blCrashesCnt : Nat
  dynFileIterExpire : Nat
deriving DecidableEq, Repr

/-- The per-worker `fuzzer_t` fields read or written by the save paths. -/
structure Slot where
  backtrace : Nat
  crashFileName : String
  sanCovCrashes : Nat
  fileName : String
  origFileName : String
deriving DecidableEq, Repr

/-- The read-only `honggfuzz_t` configuration consumed by the save paths.
`dryRunVerifier` stands for `hfuzz->flipRate == 0.0L && hfuzz->useVerifier`
(the long-double comparison is collapsed into one boolean observation). -/
structure Config where
  saveUnique : Bool
  ignoreAddr : Nat
  useSanCov : Bool
  numMajorFrames : Nat
  symbolsWhitelist : Bool
  blacklist : Option (List Nat)
  symbolsBlacklist : Bool
  disableRandomization : Bool
  dryRunVerifier : Bool
  workDir : String
  fileExtn : String
  saveMaps : Bool

/-- The fields of `siginfo_t` the save path reads: signal number, `si_code`
and `si_addr` (the address as an unsigned number, `0` standing for NULL). -/
structure SigInfo where
  signo : Nat
  code : Int
  addr : Nat
deriving DecidableEq, Repr

/-- External observations consumed by one `arch_ptraceSaveData` call: the
siginfo, the PC and instruction string from `arch_getInstrStr` (PC `0` on
register-read failure), the unwinder's frame PCs, whether the build is
ARM/ARM64, the `arch_getLR` result (`none` on failure), the whitelist and
blacklist symbol-match results (`arch_btContainsWLSymbol` /
`arch_btContainsBLSymbol`, external), the `files_copyFile` result, the local
time string, whether `files_procMapsToFile` succeeds, the target pid, and the
external `util_hash` function. -/
structure SaveIn where
  si : SigInfo
  pc : Nat
  instr : String
  frames : List Nat
  arm : Bool
  lrRead : Option Nat
  wlSymbol : Option String
  blSymbol : Option String
  copyRes : CopyRes
  localTime : String
  mapsOk : Bool
  pid : Nat
  hashFn : List Char → Nat

/-- The observable result of a save call: counters, slot, which return was
taken, and whether a crash file, a report, and a maps snapshot were
produced. -/
structure SaveOut where
  counters : Counters
  slot : Slot
  outcome : Outcome
  fileSaved : Bool
  reportGenerated : Bool
  mapsWritten : Bool

/-- `SI_FROMUSER(siptr)` (line 375): `si_code <= 0`. -/
def siFromUser (si : SigInfo) : Bool := si.code ≤ 0

/-- The uninteresting-address test of lines 895-899:
`!SI_FROMUSER(&si) && pc && si.si_addr < hfuzz->ignoreAddr`. -/
def ignoreCondB (cfg : Config) (inp : SaveIn) : Bool :=
  !siFromUser inp.si && inp.pc != 0 && decide (inp.si.addr < cfg.ignoreAddr)

/-- Frame list after the zero-frame fallback of lines 925-933: if the unwinder
returned no frames but the PC is known, synthesize a single PC-only frame. -/
def adjFrames (inp : SaveIn) : List Nat :=
  if inp.frames.isEmpty then (if inp.pc != 0 then [inp.pc] else []) else inp.frames

/-- `saveUnique` after the zero-frame fallback of lines 925-933: cleared when
both the unwinder and the PC came up empty. -/
def saveUniqueAfterUnwind (cfg : Config) (inp : SaveIn) : Bool :=
  if inp.frames.isEmpty && inp.pc == 0 then false else cfg.saveUnique

/-- The `arch_hashCallstack` call of line 944, with the adjusted frame list
and the adjusted `saveUnique` as the masking flag. -/
def hashAfterCallstack (cfg : Config) (inp : SaveIn) : Nat :=
  arch_hashCallstack inp.hashFn cfg.numMajorFrames (adjFrames inp) (saveUniqueAfterUnwind cfg inp)

/-- The guard of the single-frame special handling at line 959:
`saveUnique && (funcCnt == 1)`. -/
def singleFrameCase (cfg : Config) (inp : SaveIn) : Bool :=
  saveUniqueAfterUnwind cfg inp && (adjFrames inp).length == 1

/-- `fuzzer->backtrace` as left by lines 944-977: the masked callstack hash;
on ARM/ARM64 in the single-frame case the hash of the link-register string is
additionally XORed in afterwards (line 973; `lr` stays `0` when `arch_getLR`
failed). On non-ARM builds the single-frame case only clears `saveUnique`. -/
def computedBacktrace (cfg : Config) (inp : SaveIn) : Nat :=
  if singleFrameCase cfg inp && inp.arm then
    hashAfterCallstack cfg inp ^^^ inp.hashFn (lastThree (pcStr64 (inp.lrRead.getD 0)))
  else
    hashAfterCallstack cfg inp

/-- `saveUnique` after the single-frame special handling (lines 959-977):
non-ARM single-frame crashes always clear it; ARM clears it when the link
register could not be read or was zero. -/
def saveUniqueFinal (cfg : Config) (inp : SaveIn) : Bool :=
  if singleFrameCase cfg inp then
    if inp.arm then
      match inp.lrRead with
      | none => false
      | some lr => if lr == 0 then false else saveUniqueAfterUnwind cfg inp
    else false
  else saveUniqueAfterUnwind cfg inp

/-- The duplicate test of lines 983-994: a crash file name is already set for
this worker and the previous backtrace equals the new one. -/
def dupCondB (slot : Slot) (bt : Nat) : Bool :=
  slot.crashFileName != "" && slot.backtrace == bt

/-- Whitelist test of lines 1003-1010: `hfuzz->symbolsWhitelist` is set and
`arch_btContainsWLSymbol` found a match. -/
def wlCondB (cfg : Config) (inp : SaveIn) : Bool :=
  cfg.symbolsWhitelist && inp.wlSymbol.isSome

/-- Symbol-blacklist test of lines 1025-1032. -/
def blSymCondB (cfg : Config) (inp : SaveIn) : Bool :=
  cfg.symbolsBlacklist && inp.blSymbol.isSome

/-- Modelled from the spec: `fastArray64Search` (util.c, not under src/), a
binary search for a 64-bit key in the sorted `stack_hash_blacklist` vector,
returning an index on success and `-1` when the key is absent. -/
def fastArray64SearchAux (arr : List Nat) (key : Nat) : Nat → Nat → Nat → Int
  | 0, _, _ => -1
  | fuel + 1, lo, hi =>
    if lo ≥ hi then -1
    else
      let mid := (lo + hi) / 2
      let v := arr.getD mid 0
      if v == key then Int.ofNat mid
      else if v < key then fastArray64SearchAux arr key fuel (mid + 1) hi
      else fastArray64SearchAux arr key fuel lo mid

/-- Modelled from the spec: entry point of the binary search over the whole
sorted vector. -/
def fastArray64Search (arr : List Nat) (key : Nat) : Int :=
  fastArray64SearchAux arr key (arr.length + 1) 0 arr.length

/-- Stack-hash blacklist test of lines 1015-1020: a blacklist is configured
and the binary search does not return `-1`. -/
def blHashCondB (cfg : Config) (bt : Nat) : Bool :=
  match cfg.blacklist with
  | some bl => fastArray64Search bl bt != -1
  | none => false

/-- The `arch_sigs` signal table (lines 343-371), description column
(non-Android build). -/
def arch_sigs_descr (signo : Nat) : String :=
  if signo == 4 then "SIGILL"
  else if signo == 5 then "SIGTRAP"
  else if signo == 6 then "SIGABRT"
  else if signo == 7 then "SIGBUS"
  else if signo == 8 then "SIGFPE"
  else if signo == 11 then "SIGSEGV"
  else "UNKNOWN"

/-- The `arch_sigs` signal table (lines 343-371), `important` column
(non-Android build: SIGILL, SIGFPE, SIGSEGV, SIGBUS, SIGABRT). -/
def arch_sigs_important (signo : Nat) : Bool :=
  signo == 4 || signo == 6 || signo == 7 || signo == 8 || signo == 11

/-- Minimal-width lowercase hexadecimal rendering, as `%llx` / `PRIx64`. -/
def hexStr (n : Nat) : String := String.mk (Nat.toDigits 16 n)

/-- `%p` pointer rendering (glibc): `(nil)` for NULL, `0x` plus minimal
lowercase hex otherwise. -/
def ptrStr (n : Nat) : String :=
  if n == 0 then "(nil)" else "0x" ++ String.mk (Nat.toDigits 16 n)

/-- Crash file name composed by lines 1049-1064 (signal path). -/
def signalCrashFileName (cfg : Config) (slot : Slot) (inp : SaveIn)
    (saveUnique : Bool) (bt pcF addrF : Nat) : String :=
  if cfg.dryRunVerifier then
    (cfg.workDir ++ "/") ++ slot.origFileName
  else if saveUnique then
    (cfg.workDir ++ "/") ++ arch_sigs_descr inp.si.signo ++ ".PC." ++ hexStr pcF
      ++ ".STACK." ++ hexStr bt ++ ".CODE." ++ toString inp.si.code ++ ".ADDR."
      ++ ptrStr addrF ++ ".INSTR." ++ inp.instr ++ "." ++ cfg.fileExtn
  else
    (cfg.workDir ++ "/") ++ arch_sigs_descr inp.si.signo ++ ".PC." ++ hexStr pcF
      ++ ".STACK." ++ hexStr bt ++ ".CODE." ++ toString inp.si.code ++ ".ADDR."
      ++ ptrStr addrF ++ ".INSTR." ++ inp.instr ++ "." ++ inp.localTime ++ "."
      ++ toString inp.pid ++ "." ++ cfg.fileExtn

/-- `pc` as used for the file name: zeroed unless randomization is disabled
(lines 1038-1041). -/
def fileNamePc (cfg : Config) (inp : SaveIn) : Nat :=
  if cfg.disableRandomization then inp.pc else 0

/-- `sig_addr` as used for the file name: zeroed unless randomization is
disabled, and zeroed for user-induced signals (lines 1038-1046). -/
def fileNameAddr (cfg : Config) (inp : SaveIn) : Nat :=
  if siFromUser inp.si then 0
  else if cfg.disableRandomization then inp.si.addr else 0

/-- Lines 1034-1101 (`saveCrash:` label to end of `arch_ptraceSaveData`):
clear the two MSBs of `dynFileIterExpire`, compose the crash file name, copy
the input file, and on success bump `uniqueCrashesCnt`, zero
`dynFileIterExpire`, generate the report and optionally the maps snapshot.
When the destination already exists the crash file name is cleared and no
report is generated; on other copy errors nothing further happens. -/
def saveCrashStage (cfg : Config) (cnt : Counters) (slot : Slot) (inp : SaveIn)
    (saveUnique : Bool) (bt : Nat) : SaveOut :=
  let cnt1 : Counters := { cnt with dynFileIterExpire := cnt.dynFileIterExpire &&& dynFileSubMask }
  let fname := signalCrashFileName cfg slot inp saveUnique bt (fileNamePc cfg inp) (fileNameAddr cfg inp)
  let slot1 : Slot := { slot with crashFileName := fname }
  match inp.copyRes with
  | CopyRes.okNew =>
    ⟨{ cnt1 with uniqueCrashesCnt := cnt1.uniqueCrashesCnt + 1, dynFileIterExpire := 0 },
     slot1, Outcome.saved, true, true, cfg.saveMaps && inp.mapsOk⟩
  | CopyRes.destExists =>
    ⟨cnt1, { slot1 with crashFileName := "" }, Outcome.duplicateFile, false, false, false⟩
  | CopyRes.ioErr =>
    ⟨cnt1, slot1, Outcome.ioError, false, false, false⟩

/-- Slot after the hash computation: `fuzzer->backtrace` holds the new hash
(line 759, via line 944 and the ARM XOR of line 973), and the sanitizer
coverage crash counter was bumped when `useSanCov` is set (lines 950-952). -/
def slotAfterHash (cfg : Config) (slot : Slot) (inp : SaveIn) : Slot :=
  { slot with
    backtrace := computedBacktrace cfg inp,
    sanCovCrashes := if cfg.useSanCov then slot.sanCovCrashes + 1 else slot.sanCovCrashes }

/-- The global-crash-counter increment of line 997:
`__sync_fetch_and_add(&hfuzz->crashesCnt, 1UL)`. -/
def cntAfterCrash (cnt : Counters) : Counters :=
  { cnt with crashesCnt := cnt.crashesCnt + 1 }

/-- The blacklist-counter increment of lines 1018 and 1029:
`__sync_fetch_and_add(&hfuzz->blCrashesCnt, 1UL)`. -/
def cntAfterBl (cnt : Counters) : Counters :=
  { cnt with blCrashesCnt := cnt.blCrashesCnt + 1 }

/-- `arch_ptraceSaveData` (lines 874-1102), as a function from the
configuration, the shared counters, the worker slot and the external
observations to the new counters, slot and effects. -/
def arch_ptraceSaveData (cfg : Config) (cnt : Counters) (slot : Slot) (inp : SaveIn) : SaveOut :=
  if ignoreCondB cfg inp then
    ⟨cnt, slot, Outcome.droppedBelowAddr, false, false, false⟩
  else if dupCondB slot (computedBacktrace cfg inp) then
    ⟨cnt, slotAfterHash cfg slot inp, Outcome.droppedDuplicate, false, false, false⟩
  else if wlCondB cfg inp then
    saveCrashStage cfg (cntAfterCrash cnt) (slotAfterHash cfg slot inp) inp false
      (computedBacktrace cfg inp)
  else if blHashCondB cfg (computedBacktrace cfg inp) then
    ⟨cntAfterBl (cntAfterCrash cnt), slotAfterHash cfg slot inp,
     Outcome.blacklistedHash, false, false, false⟩
  else if blSymCondB cfg inp then
    ⟨cntAfterBl (cntAfterCrash cnt), slotAfterHash cfg slot inp,
     Outcome.blacklistedSymbol, false, false, false⟩
  else
    saveCrashStage cfg (cntAfterCrash cnt) (slotAfterHash cfg slot inp) inp
      (saveUniqueFinal cfg inp) (computedBacktrace cfg inp)

/-- `arch_sanCodeToStr` (lines 378-394): sanitizer tag from exit code. -/
def arch_sanCodeToStr (exitCode : Nat) : String :=
  if exitCode == HF_MSAN_EXIT_CODE then "MSAN"
  else if exitCode == HF_ASAN_EXIT_CODE then "ASAN"
  else if exitCode == HF_UBSAN_EXIT_CODE then "UBSAN"
  else "UNKNW"

/-- External observations consumed by one `arch_ptraceExitSaveData` call.
`parseRes` is the outcome of `arch_parseAsanReport` on the (external) log
file: `none` when the file did not exist (the C function returns `-1`), and
otherwise the recovered frame PCs, the crash address and the operation
string. -/
structure ExitIn where
  pid : Nat
  exitCode : Nat
  parseRes : Option (List Nat × Nat × String)
  copyRes : CopyRes
  localTime : String
  hashFn : List Char → Nat

/-- The observable result of a sanitizer-exit save call. `parsedLog` records
whether the ASan log file was opened (and therefore unlinked) at all. -/
structure ExitOut where
  counters : Counters
  slot : Slot
  outcome : Outcome
  fileSaved : Bool
  reportGenerated : Bool
  parsedLog : Bool

/-- Crash file name composed by lines 1272-1291 (sanitizer-exit path). -/
def exitCrashFileName (cfg : Config) (slot : Slot) (inp : ExitIn)
    (sanStr : String) (pc crashAddr : Nat) (op : String) : String :=
  if cfg.dryRunVerifier then
    (cfg.workDir ++ "/") ++ slot.origFileName
  else if slot.backtrace != 0 && cfg.saveUnique then
    (cfg.workDir ++ "/") ++ sanStr ++ ".PC." ++ hexStr pc ++ ".STACK."
      ++ hexStr slot.backtrace ++ ".CODE." ++ op ++ ".ADDR." ++ ptrStr crashAddr
      ++ ".INSTR.[UNKNOWN]." ++ cfg.fileExtn
  else
    (cfg.workDir ++ "/") ++ sanStr ++ ".PC." ++ hexStr pc ++ ".STACK."
      ++ hexStr slot.backtrace ++ ".CODE." ++ op ++ ".ADDR." ++ ptrStr crashAddr
      ++ ".INSTR.[UNKNOWN]." ++ inp.localTime ++ "." ++ cfg.fileExtn

/-- Lines 1293-1316 of `arch_ptraceExitSaveData`: copy the input to the
composed crash file name and post-process. On success `uniqueCrashesCnt` is
bumped, `dynFileIterExpire` zeroed and the report generated. When the
destination already exists the stack hash is zeroed (the crash file name is
left in place); on other copy errors the crash file name is cleared. -/
def exitPersist (cfg : Config) (cnt : Counters) (slot : Slot) (inp : ExitIn)
    (sanStr : String) (pc crashAddr : Nat) (op : String) (parsed : Bool) : ExitOut :=
  let fname := exitCrashFileName cfg slot inp sanStr pc crashAddr op
  let slot1 : Slot := { slot with crashFileName := fname }
  match inp.copyRes with
  | CopyRes.okNew =>
    ⟨{ cnt with uniqueCrashesCnt := cnt.uniqueCrashesCnt + 1, dynFileIterExpire := 0 },
     slot1, Outcome.saved, true, true, parsed⟩
  | CopyRes.destExists =>
    ⟨cnt, { slot1 with backtrace := 0 }, Outcome.duplicateFile, false, false, parsed⟩
  | CopyRes.ioErr =>
    ⟨cnt, { slot1 with crashFileName := "" }, Outcome.ioError, false, false, parsed⟩

/-- `arch_ptraceExitSaveData` (lines 1222-1344): exit-code based crash
bookkeeping. If the worker already holds a crash file name the call returns at
once (lines 1229-1231). Otherwise `crashesCnt` is bumped and the two MSBs of
`dynFileIterExpire` cleared; for an ASan exit code the report is parsed
(`none` makes the call return with everything else untouched, lines
1262-1264), the callstack hash recomputed without masking and the PC taken
from frame 0; then the file is persisted. -/
def arch_ptraceExitSaveData (cfg : Config) (cnt : Counters) (slot : Slot) (inp : ExitIn) : ExitOut :=
  if slot.crashFileName != "" then
    ⟨cnt, slot, Outcome.earlyReturn, false, false, false⟩
  else
    let cnt1 : Counters :=
      { cnt with crashesCnt := cnt.crashesCnt + 1,
                 dynFileIterExpire := cnt.dynFileIterExpire &&& dynFileSubMask }
    let sanStr := arch_sanCodeToStr inp.exitCode
    if inp.exitCode == HF_ASAN_EXIT_CODE then
      match inp.parseRes with
      | none => ⟨cnt1, slot, Outcome.logMissing, false, false, true⟩
      | some (frames, crashAddr, op) =>
        let slot1 : Slot :=
          { slot with backtrace := arch_hashCallstack inp.hashFn cfg.numMajorFrames frames false }
        exitPersist cfg cnt1 slot1 inp sanStr (frames.headD 0) crashAddr op true
    else
      exitPersist cfg cnt1 slot inp sanStr 0 0 "UNKNOWN" false

/-- `strncmp(a, b, n) == 0` for NUL-free character lists: the first `n`
characters agree (a shorter list stands for an earlier terminator). -/
def strncmpZero (a b : List Char) (n : Nat) : Bool := a.take n == b.take n

/-- `strstr(hay, needle) != NULL`: the needle occurs as a contiguous substring
of the haystack. -/
def strstrB : List Char → List Char → Bool
  | hay, needle =>
    match hay with
    | [] => needle.isEmpty
    | _ :: t => needle.isPrefixOf hay || strstrB t needle

/-- The READ/WRITE detection of `arch_parseAsanReport` (lines 1165-1172),
exactly as the C code runs it on one post-header line: when the parsed crash
address is non-NULL and occurs in the line, `op` is set to `"READ"` when
`strncmp(line, "READ", 4)` is non-zero, and otherwise to `"WRITE"` when
`strncmp(line, "WRITE", 5)` is non-zero. -/
def asanOpUpdate (line : List Char) (cAddr : Option (List Char)) (op : String) : String :=
  match cAddr with
  | none => op
  | some ca =>
    if strstrB line ca then
      if !strncmpZero line "READ".data 4 then "READ"
      else if !strncmpZero line "WRITE".data 5 then "WRITE"
      else op
    else op

/-- The READ/WRITE semantics the spec declares as intended (spec sections 4.7
and 9): a line containing the crash address and beginning with `READ` sets
`op = "READ"`; beginning with `WRITE` sets `op = "WRITE"`; otherwise `op` is
left unchanged. Stated for comparison with `asanOpUpdate`. -/
def asanOpUpdateSpec (line : List Char) (cAddr : Option (List Char)) (op : String) : String :=
  match cAddr with
  | none => op
  | some ca =>
    if strstrB line ca then
      if strncmpZero line "READ".data 4 then "READ"
      else if strncmpZero line "WRITE".data 5 then "WRITE"
      else op
    else op

/-- The address of `strchr(targetStr, c)` with `targetStr` at base address
`b`: the address of the first occurrence, or `0` (NULL) when absent. -/
def strchrIdx (t : List Char) (c : Char) : Option Nat := t.findIdx? (· == c)

/-- Index of the last occurrence of `c` in `t`, as `strrchr`. -/
def strrchrIdx (t : List Char) (c : Char) : Option Nat :=
  match t.reverse.findIdx? (· == c) with
  | some i => some (t.length - 1 - i)
  | none => none

/-- Numeric value of `startOff = strchr(targetStr, '(') + 1` (line 1192) with
`targetStr` at base address `b`: one past the address of the first `'('`, or
`0 + 1 = 1` when `strchr` returned NULL. -/
def startOffAddr (b : Nat) (t : List Char) : Nat :=
  (match strchrIdx t '(' with
   | some i => b + i
   | none => 0) + 1

/-- The `startOff == NULL` disjunct of the validity check at line 1196. -/
def startOffIsNull (b : Nat) (t : List Char) : Bool := startOffAddr b t == 0

/-- The unconditional store `targetStr[endOff - startOff] = '\0'` of line 1195,
which the C code performs before the validity check of line 1196. The result
is `none` when the store is undefined: when either pointer is NULL the
subtraction is meaningless, and when the last `')'` does not lie strictly
after the first `'('` the index is negative. Otherwise the index
`j - (i + 1)` lies inside the token and the store lands. -/
def frameTokWrite (t : List Char) : Option (List Char) :=
  match strchrIdx t '(', strrchrIdx t ')' with
  | some i, some j => if i < j then some (t.set (j - (i + 1)) (Char.ofNat 0)) else none
  | some _, none => none
  | none, _ => none

/-- Whether the validity check of line 1196 rejects the token (the
`LOG_D("Invalid ASan report entry")` branch) or accepts it. -/
inductive FrameParse
  | invalid
  | ok
deriving DecidableEq, Repr

/-- Handling of one frame line's `(module+0xOFFSET)` token (lines 1191-1203),
in the order the C code executes it: first the store of line 1195 (`none` when
it is out of bounds), then the NULL-validity check of line 1196. `startOff`
can never be NULL (it is `strchr(...) + 1`), and `endOff` is non-NULL whenever
the store landed, so the check reduces to `plusOff == NULL`. -/
def frameTokenStep (t : List Char) : Option FrameParse :=
  match frameTokWrite t with
  | none => none
  | some _ =>
    match strchrIdx t '+' with
    | none => some FrameParse.invalid
    | some _ => some FrameParse.ok

/-- The model of `strtol(s, NULL, 10)` on /proc task-directory entries: the
value of the longest digit run at the front of the string. -/
def strtol10Aux : List Char → Nat → Nat
  | [], acc => acc
  | c :: cs, acc => if c.isDigit then strtol10Aux cs (acc * 10 + (c.toNat - 48)) else acc

/-- `strtol(res->d_name, NULL, 10)` as used at line 1462. -/
def strtol10 (s : String) : Nat := strtol10Aux s.data 0

/-- The directory-walk loop of `arch_listThreads` (lines 1450-1474), tracking
only `count`: entries whose name is not numeric (`strtol` gives `0`) are
skipped; a numeric entry stores the task id at `tasks[count]` and increments
`count`; the loop breaks as soon as `count >= thrSz`. -/
def listThreadsCountAux : List String → Nat → Nat → Nat
  | [], _, c => c
  | e :: es, thrSz, c =>
    if strtol10 e == 0 then listThreadsCountAux es thrSz c
    else if c + 1 ≥ thrSz then c + 1
    else listThreadsCountAux es thrSz (c + 1)

/-- The value of `count` when `arch_listThreads` reaches line 1477, given the
directory entries actually read. -/
def listThreadsCount (entries : List String) (thrSz : Nat) : Nat :=
  listThreadsCountAux entries thrSz 0

/-- The index of the terminating store `tasks[count + 1] = 0` at line 1477. -/
def terminatorStoreIdx (entries : List String) (thrSz : Nat) : Nat :=
  listThreadsCount entries thrSz + 1

/-- The element count of the caller-supplied array: `arch_ptraceAttach` and
`arch_ptraceDetach` declare `int tasks[MAX_THREAD_IN_TASK + 1]` (lines 1517
and 1543) and pass `thrSz = MAX_THREAD_IN_TASK`. -/
def tasksArraySize (thrSz : Nat) : Nat := thrSz + 1

/-- The number of directory entries with a numeric name, i.e. those the loop
would store. -/
def numericEntryCount (entries : List String) : Nat :=
  (entries.filter (fun e => strtol10 e != 0)).length

/-! ### Theorems -/

/-- Claim C1: `arch_hashCallstack` is a pure deterministic function of the
first `min(len(frames), k_major)` frame PCs — starting from `h = 0` it XORs,
per frame, `util_hash` of the last three characters of the fixed-width
`0x`-prefixed lowercase hex rendering of the PC — so two frame lists of the
same length agreeing on their first `k_major` frames hash identically, and
altering frames beyond the first `k_major` does not change the hash. -/
theorem c1_fingerprint_determinism (hashFn : List Char → Nat) (k : Nat) (mask : Bool)
    (f1 f2 : List Nat) (hlen : f1.length = f2.length) (htake : f1.take k = f2.take k) :
    arch_hashCallstack hashFn k f1 mask = arch_hashCallstack hashFn k f2 mask := by
  unfold arch_hashCallstack callstackHash
  rw [htake, hlen]

/-- Witness for C1: two 8-frame stacks differing only in the eighth frame get
the same hash for `k_major = 7`. -/
theorem c1_fingerprint_determinism_witness :
    ([1, 2, 3, 4, 5, 6, 7, 8] : List Nat).length = ([1, 2, 3, 4, 5, 6, 7, 9] : List Nat).length
    ∧ ([1, 2, 3, 4, 5, 6, 7, 8] : List Nat).take 7 = ([1, 2, 3, 4, 5, 6, 7, 9] : List Nat).take 7
    ∧ arch_hashCallstack (fun _ => 0) 7 [1, 2, 3, 4, 5, 6, 7, 8] false
        = arch_hashCallstack (fun _ => 0) 7 [1, 2, 3, 4, 5, 6, 7, 9] false :=
  ⟨by decide, by decide,
   c1_fingerprint_determinism (fun _ => 0) 7 false _ _ (by decide) (by decide)⟩

/-- Claim C2 fails as stated: the claim asserts that on ARM/ARM64 the
link-register contribution is folded in before the masking step so the final
`slot.backtrace` always has its high bit set for a masked single-frame crash.
In the code (lines 944 and 959-977) the LR hash is XORed in after
`arch_hashCallstack` has already ORed in the mask, so an LR-hash value with
bit 63 set clears the high bit again: here a concrete ARM single-frame save
with masking requested ends with `Nat.testBit backtrace 63 = false`. -/
theorem c2_single_frame_mask_cex :
    Nat.testBit ((arch_ptraceSaveData
      ⟨true, 0, false, 7, false, none, false, true, false, "w", "fuzz", false⟩
      ⟨0, 0, 0, 0⟩
      ⟨0, "", 0, "f", "o"⟩
      ⟨⟨11, 1, 1024⟩, 5, "i", [5], true, some 2, none, none, CopyRes.okNew, "t",
       false, 9, fun _ => 2 ^ 63⟩).slot.backtrace) 63 = false := by
  decide

/-- Claim C2 (amended): for a single-frame stack with masking enabled the hash
produced by `arch_hashCallstack` has its high bit set; on ARM/ARM64 the
link-register hash is XORed in after that masking step, so the final
`slot.backtrace` high bit is set provided the LR-hash value has its high bit
clear (in particular whenever it is below `2 ^ 63`); with masking disabled
`arch_hashCallstack` returns the plain XOR fold, so the high bit is not
deliberately set. -/
theorem c2_single_frame_mask (cfg : Config) (inp : SaveIn)
    (hsu : saveUniqueAfterUnwind cfg inp = true)
    (hlen : (adjFrames inp).length = 1) :
    Nat.testBit (hashAfterCallstack cfg inp) 63 = true
    ∧ (inp.arm = true →
        inp.hashFn (lastThree (pcStr64 (inp.lrRead.getD 0))) < 2 ^ 63 →
        Nat.testBit (computedBacktrace cfg inp) 63 = true)
    ∧ (∀ hashFn k frames,
        arch_hashCallstack hashFn k frames false = callstackHash hashFn k frames) := by
  have hmask : hashAfterCallstack cfg inp
      = callstackHash inp.hashFn cfg.numMajorFrames (adjFrames inp) ||| singleFrameMask := by
    unfold hashAfterCallstack arch_hashCallstack
    rw [hsu, hlen]
    simp
  have hbit : Nat.testBit (hashAfterCallstack cfg inp) 63 = true := by
    have h2 : Nat.testBit singleFrameMask 63 = true := by decide
    rw [hmask, Nat.testBit_or, h2, Bool.or_true]
  refine ⟨hbit, ?_, ?_⟩
  · intro harm hlr
    have hsf : singleFrameCase cfg inp = true := by
      unfold singleFrameCase
      rw [hsu, hlen]
      simp
    unfold computedBacktrace
    rw [hsf, harm]
    simp only [Bool.and_self, if_true]
    rw [Nat.testBit_xor, hbit, Nat.testBit_lt_two_pow hlr]
    rfl
  · intro hashFn k frames
    unfold arch_hashCallstack
    simp

/-- Witness for C2 (amended): a concrete ARM single-frame save with a small
hash function, where the mask survives the LR fold. -/
theorem c2_single_frame_mask_witness :
    Nat.testBit (hashAfterCallstack
        ⟨true, 0, false, 7, false, none, false, true, false, "w", "fuzz", false⟩
        ⟨⟨11, 1, 1024⟩, 5, "i", [5], true, some 2, none, none, CopyRes.okNew, "t",
         false, 9, fun _ => 1⟩) 63 = true
    ∧ Nat.testBit (computedBacktrace
        ⟨true, 0, false, 7, false, none, false, true, false, "w", "fuzz", false⟩
        ⟨⟨11, 1, 1024⟩, 5, "i", [5], true, some 2, none, none, CopyRes.okNew, "t",
         false, 9, fun _ => 1⟩) 63 = true
    ∧ arch_hashCallstack (fun _ => 1) 7 [5] false = callstackHash (fun _ => 1) 7 [5] := by
  have h := c2_single_frame_mask
    ⟨true, 0, false, 7, false, none, false, true, false, "w", "fuzz", false⟩
    ⟨⟨11, 1, 1024⟩, 5, "i", [5], true, some 2, none, none, CopyRes.okNew, "t",
     false, 9, fun _ => 1⟩
    (by decide) (by decide)
  exact ⟨h.1, h.2.1 (by decide) (by decide), h.2.2 (fun _ => 1) 7 [5]⟩

/-- Claim C3 names the intended READ/WRITE semantics; the code (lines
1165-1172) inverts both `strncmp` conditionals, so on a line containing the
crash address it sets `op = "WRITE"` when the line begins with `READ`, sets
`op = "READ"` when the line begins with `WRITE`, and sets `op = "READ"` when
the line begins with neither — each contradicting the claim, and diverging
from the spec-intended `asanOpUpdateSpec` on all three inputs. -/
theorem c3_asan_op_inverted :
    asanOpUpdate "READ of size 4 at 0xdeadc0de thread T0".data
        (some "0xdeadc0de".data) "UNKNOWN" = "WRITE"
    ∧ asanOpUpdate "WRITE of size 4 at 0xdeadc0de thread T0".data
        (some "0xdeadc0de".data) "UNKNOWN" = "READ"
    ∧ asanOpUpdate "located 0 bytes inside of 0xdeadc0de region".data
        (some "0xdeadc0de".data) "UNKNOWN" = "READ"
    ∧ asanOpUpdateSpec "READ of size 4 at 0xdeadc0de thread T0".data
        (some "0xdeadc0de".data) "UNKNOWN" = "READ"
    ∧ asanOpUpdateSpec "located 0 bytes inside of 0xdeadc0de region".data
        (some "0xdeadc0de".data) "UNKNOWN" = "UNKNOWN" := by
  decide

/-- Claim C4: when the worker already holds a crash file name and the stored
backtrace equals the newly computed hash, `arch_ptraceSaveData` returns before
the `crashesCnt` increment of line 997: all four shared counters are
unchanged, no file is copied, no report is generated, and (unless the
ignore-address check already dropped the stop) the return taken is the
duplicate drop of lines 991-993, before any filter. -/
theorem c4_duplicate_drop (cfg : Config) (cnt : Counters) (slot : Slot) (inp : SaveIn)
    (hpath : slot.crashFileName ≠ "")
    (hhash : slot.backtrace = computedBacktrace cfg inp) :
    (arch_ptraceSaveData cfg cnt slot inp).counters = cnt
    ∧ (arch_ptraceSaveData cfg cnt slot inp).fileSaved = false
    ∧ (arch_ptraceSaveData cfg cnt slot inp).reportGenerated = false
    ∧ (ignoreCondB cfg inp = false →
        (arch_ptraceSaveData cfg cnt slot inp).outcome = Outcome.droppedDuplicate) := by
  have hdup : dupCondB slot (computedBacktrace cfg inp) = true := by
    unfold dupCondB
    rw [hhash]
    simp [hpath]
  unfold arch_ptraceSaveData
  by_cases hig : ignoreCondB cfg inp = true
  · rw [if_pos hig]
    exact ⟨rfl, rfl, rfl, fun h => absurd (h.symm.trans hig) (by decide)⟩
  · rw [if_neg hig, if_pos hdup]
    exact ⟨rfl, rfl, rfl, fun _ => rfl⟩

/-- Witness for C4: a concrete repeat crash (crash file name already set,
stored hash equal to the recomputed hash) leaves the counters untouched. -/
theorem c4_duplicate_drop_witness :
    (arch_ptraceSaveData
      ⟨false, 0, false, 7, false, none, false, true, false, "w", "fuzz", false⟩
      ⟨3, 4, 5, 6⟩
      ⟨7, "x", 0, "f", "o"⟩
      ⟨⟨11, 1, 1024⟩, 3, "i", [3], false, none, none, none, CopyRes.okNew, "t",
       false, 9, fun _ => 7⟩).counters = ⟨3, 4, 5, 6⟩ :=
  (c4_duplicate_drop _ _ _ _ (by decide) (by decide)).1

/-- Claim C5: a crash that reaches the filter stage (not dropped by the
ignore-address or duplicate checks), whose backtrace carries no whitelisted
symbol, and whose stack hash is found by the binary search in the sorted hash
blacklist, bumps `blCrashesCnt` by exactly one and is dropped: no file is
copied, no report is written, and `uniqueCrashesCnt` is unchanged. -/
theorem c5_blacklist_filter (cfg : Config) (cnt : Counters) (slot : Slot) (inp : SaveIn)
    (hig : ignoreCondB cfg inp = false)
    (hdup : dupCondB slot (computedBacktrace cfg inp) = false)
    (hwl : wlCondB cfg inp = false)
    (hbl : blHashCondB cfg (computedBacktrace cfg inp) = true) :
    (arch_ptraceSaveData cfg cnt slot inp).counters.blCrashesCnt = cnt.blCrashesCnt + 1
    ∧ (arch_ptraceSaveData cfg cnt slot inp).counters.uniqueCrashesCnt = cnt.uniqueCrashesCnt
    ∧ (arch_ptraceSaveData cfg cnt slot inp).fileSaved = false
    ∧ (arch_ptraceSaveData cfg cnt slot inp).reportGenerated = false
    ∧ (arch_ptraceSaveData cfg cnt slot inp).outcome = Outcome.blacklistedHash := by
  unfold arch_ptraceSaveData
  rw [if_neg (by simp [hig]), if_neg (by simp [hdup]), if_neg (by simp [hwl]), if_pos hbl]
  exact ⟨rfl, rfl, rfl, rfl, rfl⟩

/-- Witness for C5: a concrete blacklisted stack hash (`7`, found by
`fastArray64Search` in the sorted vector `[7]`) is counted and dropped. -/
theorem c5_blacklist_filter_witness :
    (arch_ptraceSaveData
      ⟨false, 0, false, 7, false, some [7], false, true, false, "w", "fuzz", false⟩
      ⟨3, 4, 5, 6⟩
      ⟨0, "", 0, "f", "o"⟩
      ⟨⟨11, 1, 1024⟩, 3, "i", [3], false, none, none, none, CopyRes.okNew, "t",
       false, 9, fun _ => 7⟩).counters.blCrashesCnt = 6
    ∧ (arch_ptraceSaveData
      ⟨false, 0, false, 7, false, some [7], false, true, false, "w", "fuzz", false⟩
      ⟨3, 4, 5, 6⟩
      ⟨0, "", 0, "f", "o"⟩
      ⟨⟨11, 1, 1024⟩, 3, "i", [3], false, none, none, none, CopyRes.okNew, "t",
       false, 9, fun _ => 7⟩).counters.uniqueCrashesCnt = 4 := by
  have h := c5_blacklist_filter
    ⟨false, 0, false, 7, false, some [7], false, true, false, "w", "fuzz", false⟩
    ⟨3, 4, 5, 6⟩
    ⟨0, "", 0, "f", "o"⟩
    ⟨⟨11, 1, 1024⟩, 3, "i", [3], false, none, none, none, CopyRes.okNew, "t",
     false, 9, fun _ => 7⟩
    (by decide) (by decide) (by decide) (by decide)
  exact ⟨h.1, h.2.1⟩

/-- Claim C6 fails as stated: it asserts that on a copy failing because the
destination exists, `slot.crash_path` is cleared in both save paths. The
sanitizer-exit path (lines 1302-1306) instead zeroes `fuzzer->backtrace` and
leaves `crashFileName` set — only the write-error branch (line 1311) clears
it there. Concretely, after an ASan-exit save hitting an existing destination
the crash file name is non-empty while the backtrace has been zeroed. -/
theorem c6_persist_duplicate_cex :
    (arch_ptraceExitSaveData
      ⟨true, 0, false, 7, false, none, false, true, false, "w", "fuzz", false⟩
      ⟨0, 0, 0, 0⟩
      ⟨5, "", 0, "f", "o"⟩
      ⟨9, 104, some ([3], 7, "READ"), CopyRes.destExists, "t", fun _ => 1⟩).slot.crashFileName ≠ ""
    ∧ (arch_ptraceExitSaveData
      ⟨true, 0, false, 7, false, none, false, true, false, "w", "fuzz", false⟩
      ⟨0, 0, 0, 0⟩
      ⟨5, "", 0, "f", "o"⟩
      ⟨9, 104, some ([3], 7, "READ"), CopyRes.destExists, "t", fun _ => 1⟩).slot.backtrace = 0
    ∧ (arch_ptraceExitSaveData
      ⟨true, 0, false, 7, false, none, false, true, false, "w", "fuzz", false⟩
      ⟨0, 0, 0, 0⟩
      ⟨5, "", 0, "f", "o"⟩
      ⟨9, 104, some ([3], 7, "READ"), CopyRes.destExists, "t", fun _ => 1⟩).outcome
        = Outcome.duplicateFile := by
  refine ⟨?_, by decide, by decide⟩
  decide

/-- Claim C6 (amended): when the copy fails because the destination exists,
neither path increments `uniqueCrashesCnt` or emits a report; the signal path
(lines 1075-1079) clears `slot.crashFileName` so another TID may retry, while
the sanitizer-exit path (lines 1302-1306) zeroes `slot.backtrace` instead and
leaves `slot.crashFileName` holding the composed crash file name (that path
clears the name only on write errors). -/
theorem c6_persist_duplicate (cfgS : Config) (cntS : Counters) (slotS : Slot) (inpS : SaveIn)
    (su : Bool) (bt : Nat) (hS : inpS.copyRes = CopyRes.destExists)
    (cfgE : Config) (cntE : Counters) (slotE : Slot) (inpE : ExitIn)
    (sanStr : String) (pc ca : Nat) (op : String) (parsed : Bool)
    (hE : inpE.copyRes = CopyRes.destExists) :
    ((saveCrashStage cfgS cntS slotS inpS su bt).slot.crashFileName = ""
      ∧ (saveCrashStage cfgS cntS slotS inpS su bt).counters.uniqueCrashesCnt
          = cntS.uniqueCrashesCnt
      ∧ (saveCrashStage cfgS cntS slotS inpS su bt).reportGenerated = false
      ∧ (saveCrashStage cfgS cntS slotS inpS su bt).outcome = Outcome.duplicateFile)
    ∧ ((exitPersist cfgE cntE slotE inpE sanStr pc ca op parsed).slot.backtrace = 0
      ∧ (exitPersist cfgE cntE slotE inpE sanStr pc ca op parsed).slot.crashFileName
          = exitCrashFileName cfgE slotE inpE sanStr pc ca op
      ∧ (exitPersist cfgE cntE slotE inpE sanStr pc ca op parsed).counters.uniqueCrashesCnt
          = cntE.uniqueCrashesCnt
      ∧ (exitPersist cfgE cntE slotE inpE sanStr pc ca op parsed).reportGenerated = false) := by
  constructor
  · unfold saveCrashStage
    rw [hS]
    exact ⟨rfl, rfl, rfl, rfl⟩
  · unfold exitPersist
    rw [hE]
    exact ⟨rfl, rfl, rfl, rfl⟩

/-- Witness for C6 (amended): concrete duplicate hits in both paths. -/
theorem c6_persist_duplicate_witness :
    (saveCrashStage
      ⟨true, 0, false, 7, false, none, false, true, false, "w", "fuzz", false⟩
      ⟨1, 2, 3, 4⟩ ⟨5, "p", 0, "f", "o"⟩
      ⟨⟨11, 1, 1024⟩, 3, "i", [3], false, none, none, none, CopyRes.destExists, "t",
       false, 9, fun _ => 7⟩ true 7).slot.crashFileName = ""
    ∧ (exitPersist
      ⟨true, 0, false, 7, false, none, false, true, false, "w", "fuzz", false⟩
      ⟨1, 2, 3, 4⟩ ⟨5, "", 0, "f", "o"⟩
      ⟨9, 104, some ([3], 7, "READ"), CopyRes.destExists, "t", fun _ => 1⟩
      "ASAN" 3 7 "READ" true).slot.backtrace = 0 := by
  have h := c6_persist_duplicate
    ⟨true, 0, false, 7, false, none, false, true, false, "w", "fuzz", false⟩
    ⟨1, 2, 3, 4⟩ ⟨5, "p", 0, "f", "o"⟩
    ⟨⟨11, 1, 1024⟩, 3, "i", [3], false, none, none, none, CopyRes.destExists, "t",
     false, 9, fun _ => 7⟩ true 7 (by decide)
    ⟨true, 0, false, 7, false, none, false, true, false, "w", "fuzz", false⟩
    ⟨1, 2, 3, 4⟩ ⟨5, "", 0, "f", "o"⟩
    ⟨9, 104, some ([3], 7, "READ"), CopyRes.destExists, "t", fun _ => 1⟩
    "ASAN" 3 7 "READ" true (by decide)
  exact ⟨h.1.1, h.2.1⟩

/-- Claim C7 fails as stated: the drop of lines 895-899 also requires a
non-zero PC (`!SI_FROMUSER(&si) && pc && si.si_addr < hfuzz->ignoreAddr`).
Concretely, a stop that is not user-induced (`si_code = 1`) with fault address
`0x200` below `ignore_below_addr = 0x10000` but with `pc = 0` is not dropped:
`crashesCnt` changes from 0 to 1, contradicting "no counter changes" with "no
condition on the value of the PC". -/
theorem c7_ignore_below_addr_cex :
    siFromUser ⟨11, 1, 512⟩ = false
    ∧ (512 : Nat) < 65536
    ∧ (arch_ptraceSaveData
      ⟨false, 65536, false, 7, false, none, false, true, false, "w", "fuzz", false⟩
      ⟨0, 0, 0, 0⟩
      ⟨0, "", 0, "f", "o"⟩
      ⟨⟨11, 1, 512⟩, 0, "i", [], false, none, none, none, CopyRes.okNew, "t",
       false, 9, fun _ => 0⟩).counters.crashesCnt = 1 := by
  refine ⟨by decide, by decide, ?_⟩
  decide

/-- Claim C7 (amended): when the signal is not user-induced, the PC is
non-zero, and the fault address is below `ignore_below_addr`,
`arch_ptraceSaveData` drops the crash with no side effects at all: counters,
backtrace and crash file name unchanged, no file written, no report. -/
theorem c7_ignore_below_addr (cfg : Config) (cnt : Counters) (slot : Slot) (inp : SaveIn)
    (h1 : siFromUser inp.si = false) (h2 : inp.pc ≠ 0)
    (h3 : inp.si.addr < cfg.ignoreAddr) :
    arch_ptraceSaveData cfg cnt slot inp
      = ⟨cnt, slot, Outcome.droppedBelowAddr, false, false, false⟩ := by
  have hig : ignoreCondB cfg inp = true := by
    unfold ignoreCondB
    simp [h1, h2, h3]
  unfold arch_ptraceSaveData
  rw [if_pos hig]

/-- Witness for C7 (amended): a concrete low-address fault with known PC is
dropped without side effects. -/
theorem c7_ignore_below_addr_witness :
    arch_ptraceSaveData
      ⟨false, 65536, false, 7, false, none, false, true, false, "w", "fuzz", false⟩
      ⟨0, 0, 0, 0⟩
      ⟨0, "", 0, "f", "o"⟩
      ⟨⟨11, 1, 512⟩, 3, "i", [3], false, none, none, none, CopyRes.okNew, "t",
       false, 9, fun _ => 0⟩
      = ⟨⟨0, 0, 0, 0⟩, ⟨0, "", 0, "f", "o"⟩, Outcome.droppedBelowAddr, false, false, false⟩ :=
  c7_ignore_below_addr _ _ _ _ (by decide) (by decide) (by decide)

/-- Claim C8: when the worker's `crashFileName` is already non-empty,
`arch_ptraceExitSaveData` returns immediately (lines 1229-1231): the counters,
the slot and the filesystem (file copy, report, log parse/unlink) are all
untouched, so at most the first sanitizer hit per worker iteration is
processed, independently of stack-hash equality. -/
theorem c8_exit_first_hit_only (cfg : Config) (cnt : Counters) (slot : Slot) (inp : ExitIn)
    (h : slot.crashFileName ≠ "") :
    arch_ptraceExitSaveData cfg cnt slot inp
      = ⟨cnt, slot, Outcome.earlyReturn, false, false, false⟩ := by
  unfold arch_ptraceExitSaveData
  rw [if_pos (by simp [h])]

/-- Witness for C8: a concrete second sanitizer hit is ignored outright. -/
theorem c8_exit_first_hit_only_witness :
    arch_ptraceExitSaveData
      ⟨true, 0, false, 7, false, none, false, true, false, "w", "fuzz", false⟩
      ⟨1, 2, 3, 4⟩
      ⟨5, "p", 0, "f", "o"⟩
      ⟨9, 104, some ([3], 7, "READ"), CopyRes.okNew, "t", fun _ => 1⟩
      = ⟨⟨1, 2, 3, 4⟩, ⟨5, "p", 0, "f", "o"⟩, Outcome.earlyReturn, false, false, false⟩ :=
  c8_exit_first_hit_only _ _ _ _ (by decide)

/-- Helper for C9: when fewer slots than numeric entries remain, the
collection loop of `arch_listThreads` runs `count` all the way up to
`thrSz`. -/
theorem listThreadsCountAux_fills (es : List String) (thrSz : Nat) :
    ∀ c, c < thrSz → thrSz ≤ c + numericEntryCount es →
      listThreadsCountAux es thrSz c = thrSz := by
  induction es with
  | nil =>
    intro c hc hn
    unfold numericEntryCount at hn
    simp at hn
    omega
  | cons e es ih =>
    intro c hc hn
    unfold listThreadsCountAux
    by_cases he : strtol10 e = 0
    · rw [if_pos (by simp [he])]
      apply ih c hc
      have hcount : numericEntryCount (e :: es) = numericEntryCount es := by
        unfold numericEntryCount
        simp [List.filter_cons, he]
      omega
    · rw [if_neg (by simp [he])]
      have hcount : numericEntryCount (e :: es) = numericEntryCount es + 1 := by
        unfold numericEntryCount
        simp [List.filter_cons, he]
      by_cases hge : c + 1 ≥ thrSz
      · rw [if_pos hge]
        omega
      · rw [if_neg hge]
        apply ih (c + 1) (by omega)
        omega

/-- Claim C9: `arch_listThreads` stores its terminating zero at index
`count + 1` (line 1477) of the caller's `thrSz + 1`-element array; that store
is in bounds exactly when `count < thrSz`, and when enough numeric
`/proc/<pid>/task` entries exist to fill the array to capacity
(`count = thrSz`, i.e. `MAX_THREAD_IN_TASK` threads) the store index equals
the array size — one element past the end. -/
theorem c9_list_threads_terminator (entries : List String) (thrSz : Nat) :
    (terminatorStoreIdx entries thrSz < tasksArraySize thrSz
      ↔ listThreadsCount entries thrSz < thrSz)
    ∧ (listThreadsCount entries thrSz = thrSz →
        terminatorStoreIdx entries thrSz = tasksArraySize thrSz)
    ∧ (1 ≤ thrSz → thrSz ≤ numericEntryCount entries →
        listThreadsCount entries thrSz = thrSz) := by
  refine ⟨?_, ?_, ?_⟩
  · unfold terminatorStoreIdx tasksArraySize
    omega
  · intro h
    unfold terminatorStoreIdx tasksArraySize
    omega
  · intro h1 h2
    exact listThreadsCountAux_fills entries thrSz 0 (by omega) (by omega)

/-- Witness for C9: three task entries (two numeric) against `thrSz = 2` fill
the array to capacity and push the terminating store one past the end. -/
theorem c9_list_threads_terminator_witness :
    listThreadsCount ["3", ".", "4"] 2 = 2
    ∧ terminatorStoreIdx ["3", ".", "4"] 2 = tasksArraySize 2 := by
  have h := c9_list_threads_terminator ["3", ".", "4"] 2
  have hc : listThreadsCount ["3", ".", "4"] 2 = 2 :=
    h.2.2 (by decide) (by decide)
  exact ⟨hc, h.2.1 hc⟩

/-- Claim C10: in the frame-line handling of `arch_parseAsanReport` (lines
1191-1203) the store `targetStr[endOff - startOff] = '\0'` (line 1195) runs
before the NULL-validity check of line 1196, so the step is memory-safe
exactly when the token contains a `'('` and a `')'` with the first `'('
strictly before the last `')'`; and the `startOff == NULL` disjunct of the
check can never fire, since `startOff = strchr(targetStr, '(') + 1` is
non-zero at every base address. -/
theorem c10_asan_frame_token (t : List Char) :
    ((frameTokenStep t).isSome
      ↔ ∃ i j, strchrIdx t '(' = some i ∧ strrchrIdx t ')' = some j ∧ i < j)
    ∧ (∀ b : Nat, startOffIsNull b t = false) := by
  constructor
  · unfold frameTokenStep frameTokWrite
    cases h1 : strchrIdx t '(' with
    | none => simp
    | some i =>
      cases h2 : strrchrIdx t ')' with
      | none => simp
      | some j =>
        by_cases hij : i < j
        · cases h3 : strchrIdx t '+' <;> simp [h3, hij]
        · simp [hij]
  · intro b
    unfold startOffIsNull startOffAddr
    cases strchrIdx t '(' <;> simp

end Honggfuzz
